import Mathlib

/-!
Verification development for the vibe-worldbuilding entry-creation core.

The model shallowly embeds the entry-creation and context-assembly pipeline:
`create_world_entry` and `_create_entry_file` from
`vibe_worldbuilding/entries/creation.py`, the entry tool router
`handle_entry_tool` from `vibe_worldbuilding/tools/entries.py`, and the
constants of `vibe_worldbuilding/config.py`.  Helper modules that the
repository imports but whose sources are not available
(`utils/content_parsing.py`, `utils/path_helpers.py`, `entries/utilities.py`,
`entries/stub_generation.py` and the sibling tool handlers) are modelled from
the specification; each such definition carries a doc comment saying so.

Strings are embedded as lists of characters (`Str`), documents as lists of
lines (`List Line`), and the filesystem as an explicit association list from
paths to documents, threaded through the functions.  Python exceptions are
embedded with the `PyResult` type: the region of `create_world_entry` that the
source wraps in `try` returns a `PyResult`, and the outer function converts a
raised exception into the error text the source builds.
-/

/-- Characters of a Python string, embedded as a list. -/
abbrev Str := List Char

/-- One line of a document (no newline characters by construction of `splitLines`). -/
abbrev Line := List Char

/-- A filesystem path, as a list of path segments. -/
abbrev FsPath := List Str

/-- Embed a Lean string literal as a character list. -/
def str (s : String) : Str := s.data

/-- Python `str.strip`: drop whitespace from both ends. -/
def stripChars (l : Str) : Str :=
  ((l.dropWhile Char.isWhitespace).reverse.dropWhile Char.isWhitespace).reverse

/-- Split a character list into its lines at newline characters, the way
Python `str.splitlines`-style processing and file writing see a document.
The empty string has one empty line. -/
def splitLines : Str → List Line
  | [] => [[]]
  | c :: cs =>
    if c = '\n' then [] :: splitLines cs
    else
      match splitLines cs with
      | [] => [[c]]
      | l :: ls => (c :: l) :: ls

/-- Helper for `titleCase`: the flag records whether the previous character
was non-alphabetic (word boundary), matching Python `str.title`. -/
def titleCaseAux : Bool → Str → Str
  | _, [] => []
  | b, c :: cs =>
    (if c.isAlpha then (if b then c.toUpper else c.toLower) else c) :: titleCaseAux (!c.isAlpha) cs

/-- Python `str.title`: uppercase the first letter of every word, lowercase the rest. -/
def titleCase (l : Str) : Str := titleCaseAux true l

/-- Flatten a document to a single line, joining lines with spaces; used to
model bounded text excerpts of files. -/
def flattenDoc (d : List Line) : Line := List.intercalate [' '] d

/-- Drop a suffix from a character list when present (`None` otherwise). -/
def dropSuffixChars (suff l : Str) : Option Str :=
  if suff.isSuffixOf l then some (l.take (l.length - suff.length)) else none

/-- Configuration constant `MAX_DESCRIPTION_LINES` from `config.py`. -/
def MAX_DESCRIPTION_LINES : Nat := 3

/-- Configuration constant `TAXONOMY_OVERVIEW_SUFFIX` from `config.py`. -/
def TAXONOMY_OVERVIEW_SUFFIX : Str := str "-overview"

/-- Configuration constant `MARKDOWN_EXTENSION` from `config.py`. -/
def MARKDOWN_EXTENSION : Str := str ".md"

/-- The frontmatter delimiter line of a markdown document. -/
def fmDelim : Line := str "---"

/-- Render one frontmatter field as a `key: value` line. -/
def renderField (kv : Str × Str) : Line := kv.1 ++ ':' :: ' ' :: kv.2

/-- Parse a `key: value` line back into a pair, splitting at the first colon,
which must be followed by a space; `None` on lines of any other shape. -/
def parseField : Line → Option (Str × Str)
  | [] => none
  | c :: rest =>
    if c = ':' then
      match rest with
      | ' ' :: v => some ([], v)
      | _ => none
    else (parseField rest).map (fun kv => (c :: kv.1, kv.2))

/-- A document carries a frontmatter header block when its first line is the
delimiter and a closing delimiter line follows. -/
def hasFmHeader (d : List Line) : Bool :=
  match d with
  | l :: rest => l == fmDelim && rest.any (· == fmDelim)
  | [] => false

/-- The lines of a document after removing its frontmatter header block
(everything through the closing delimiter). -/
def dropFmHeader (d : List Line) : List Line :=
  ((d.drop 1).dropWhile (fun l => !(l == fmDelim))).drop 1

/-- Modelled from the spec: `add_frontmatter_to_content` of the missing
`utils/content_parsing.py`.  Serializes the fields as a header block and
prepends it to the content; if the content already has a header block, that
block is replaced rather than stacked under the new one. -/
def add_frontmatter_to_content (d : List Line) (f : List (Str × Str)) : List Line :=
  let body := if hasFmHeader d then dropFmHeader d else d
  fmDelim :: f.map renderField ++ fmDelim :: body

/-- Modelled from the spec: `extract_frontmatter` of the missing
`utils/content_parsing.py`.  Parses a header block into a field list plus the
remaining body; content without a well-formed header degrades to an empty
field list and the unchanged document, never failing. -/
def extract_frontmatter (d : List Line) : List (Str × Str) × List Line :=
  match d with
  | [] => ([], [])
  | l :: rest =>
    if l == fmDelim && rest.any (· == fmDelim) then
      ((rest.takeWhile (fun l => !(l == fmDelim))).filterMap parseField,
       (rest.dropWhile (fun l => !(l == fmDelim))).drop 1)
    else ([], l :: rest)

/-- Modelled from the spec: `extract_description_from_content` of the missing
`utils/content_parsing.py`.  Returns the first non-empty block of prose, up to
`MAX_DESCRIPTION_LINES` lines, joined by spaces; empty when there is none. -/
def extract_description_from_content (content : Str) : Str :=
  let ls := (splitLines content).map stripChars
  let block := (ls.dropWhile (· == ([] : Line))).takeWhile (fun l => !(l == ([] : Line)))
  List.intercalate [' '] (block.take MAX_DESCRIPTION_LINES)

/-- The filesystem: existing directories and an association list from file
paths to file contents (documents as line lists). -/
structure FS where
  dirs : List FsPath
  files : List (FsPath × List Line)
deriving DecidableEq

/-- Directory existence test. -/
def FS.dirExists (fs : FS) (p : FsPath) : Bool := fs.dirs.any (· == p)

/-- File existence test. -/
def FS.fileExists (fs : FS) (p : FsPath) : Bool := fs.files.any (fun pc => pc.1 == p)

/-- Read a file, returning its document when present. -/
def FS.readFile (fs : FS) (p : FsPath) : Option (List Line) :=
  (fs.files.find? (fun pc => pc.1 == p)).map (·.2)

/-- Write a file, overwriting any prior file at that path. -/
def FS.writeFile (fs : FS) (p : FsPath) (c : List Line) : FS :=
  ⟨fs.dirs, (p, c) :: fs.files.filter (fun pc => !(pc.1 == p))⟩

/-- Python `Path.mkdir(parents=True, exist_ok=True)`: record the directory
and all its ancestors as existing. -/
def FS.mkdirp (fs : FS) (p : FsPath) : FS := ⟨p.inits ++ fs.dirs, fs.files⟩

/-- Arguments of the `create_world_entry` tool, as parsed from the argument
dictionary with `dict.get(key, "")`: a key missing from the dictionary is the
empty string. -/
structure Args where
  world_directory : Str
  taxonomy : Str
  entry_name : Str
  entry_content : Str
deriving DecidableEq

/-- Python result of the region of `create_world_entry` wrapped in `try`:
either a normal return of response text, or a raised exception carrying its
message; both carry the filesystem state at that point. -/
inductive PyResult where
  | ok (text : Str) (fs : FS)
  | exn (msg : Str) (fs : FS)
deriving DecidableEq

/-- Environment of a tool call: the configured base directory, the fault the
filesystem write raises (if any), and the opaque external collaborators (the
stub-analysis text and the four sibling entry-tool handlers, which the router
dispatches to but whose sources are out of scope). -/
structure Env where
  baseDir : FsPath
  writeFault : Option Str
  stubAnalysis : Str
  stubEntriesH : Option Args → FS → Except Str (Str × FS)
  genDescH : Option Args → FS → Except Str (Str × FS)
  addFmH : Option Args → FS → Except Str (Str × FS)
  consistencyH : Option Args → FS → Except Str (Str × FS)

/-- Modelled from the spec: `resolve_world_path` of the missing
`utils/path_helpers.py`.  Resolves the world-directory argument against the
configured base directory, producing an absolute path; never fails and does
not check existence. -/
def resolve_world_path (base : FsPath) (wd : Str) : FsPath := base ++ [wd]

/-- Modelled from the spec: `clean_name` of the missing
`entries/utilities.py`.  Lowercases, trims surrounding whitespace, and
replaces internal whitespace and disallowed characters with hyphens. -/
def clean_name (l : Str) : Str :=
  (stripChars l).map (fun c => if c.isAlphanum then c.toLower else '-')

/-- Path of the overview file of a taxonomy under a world root, as built by
`create_world_entry`: `taxonomies/<slug>-overview.md`. -/
def taxonomyOverviewPath (wp : FsPath) (ctax : Str) : FsPath :=
  wp ++ [str "taxonomies", ctax ++ TAXONOMY_OVERVIEW_SUFFIX ++ MARKDOWN_EXTENSION]

/-- Modelled from the spec: `get_existing_taxonomies` of the missing
`entries/utilities.py`.  Enumerates the files of `taxonomies/` whose names
follow the overview-suffix convention and reports each name with the suffix
stripped. -/
def get_existing_taxonomies (fs : FS) (wp : FsPath) : List Str :=
  fs.files.filterMap (fun pc =>
    if wp.isPrefixOf pc.1 then
      match pc.1.drop wp.length with
      | [d, name] =>
        if d = str "taxonomies" then
          dropSuffixChars (TAXONOMY_OVERVIEW_SUFFIX ++ MARKDOWN_EXTENSION) name
        else none
      | _ => none
    else none)

/-- Modelled from the spec: `extract_taxonomy_context` of the missing
`entries/utilities.py`.  Reads a bounded prefix (500 characters) of the
taxonomy overview file as a one-line excerpt; missing file degrades to the
empty excerpt. -/
def extract_taxonomy_context (fs : FS) (wp : FsPath) (ctax : Str) : Str :=
  match fs.readFile (taxonomyOverviewPath wp ctax) with
  | none => []
  | some c => (flattenDoc c).take 500

/-- Modelled from the spec: `get_existing_entries_with_descriptions` of the
missing `entries/utilities.py`.  Scans the files under `entries/**` and pairs
each file name with the description field of its frontmatter when
extractable. -/
def get_existing_entries_with_descriptions (fs : FS) (wp : FsPath) : List (Str × Str) :=
  fs.files.filterMap (fun pc =>
    if wp.isPrefixOf pc.1 then
      match pc.1.drop wp.length with
      | [d, _, name] =>
        if d = str "entries" then
          some (name, ((extract_frontmatter pc.2).1.lookup (str "description")).getD [])
        else none
      | _ => none
    else none)

/-- Modelled from the spec: `create_world_context_prompt` of the missing
`entries/utilities.py`.  Pure text templating composing the taxonomy list,
the existing entries with descriptions, the taxonomy context excerpt and the
world overview excerpt into one context block. -/
def create_world_context_prompt (taxonomies : List Str) (entries : List (Str × Str))
    (tctx wov tax : Str) : Str :=
  str "## Existing Taxonomies\n" ++ List.intercalate (str ", ") taxonomies ++
  str "\n\n## Existing Entries\n" ++
  List.intercalate (str "\n") (entries.map (fun e => str "- " ++ e.1 ++ str ": " ++ e.2)) ++
  str "\n\n## Taxonomy Context for " ++ tax ++ str "\n" ++ tctx ++
  str "\n\n## World Overview\n" ++ wov

/-- Embeds `_get_world_overview` from `entries/creation.py`: read
`overview/world-overview.md`, keep the first 500 characters and append an
ellipsis when truncated; a missing file degrades to the empty string. -/
def get_world_overview (fs : FS) (wp : FsPath) : Str :=
  match fs.readFile (wp ++ [str "overview", str "world-overview.md"]) with
  | none => []
  | some c =>
    let f := flattenDoc c
    if 500 < f.length then f.take 500 ++ str "..." else f

/-- Embeds `_generate_optimized_entry_image` from `entries/creation.py`: the
image-generation path is disabled in the source and returns the empty string
unconditionally. -/
def generate_optimized_entry_image : Str := []

/-- Modelled from the spec: `generate_stub_analysis` of the missing
`entries/stub_generation.py`, an opaque collaborator returning text; the text
it returns for this call is taken from the environment. -/
def generate_stub_analysis (env : Env) : Str := env.stubAnalysis

/-- Python truthiness test `not all([world_directory, taxonomy, entry_name])`
of `create_world_entry`: a required argument is missing when empty. -/
def missingArgs (a : Args) : Bool :=
  a.world_directory.isEmpty || a.taxonomy.isEmpty || a.entry_name.isEmpty

/-- Python truthiness test `entry_content.strip()` of `create_world_entry`. -/
def hasContent (a : Args) : Bool := !(stripChars a.entry_content).isEmpty

/-- Frontmatter built by `_create_entry_file`: description derived from the
content, fixed `article_type` of `full`, and the taxonomy context when that
excerpt is non-empty. -/
def entryFrontmatter (content tctx : Str) : List (Str × Str) :=
  [(str "description", extract_description_from_content content),
   (str "article_type", str "full")] ++
  (if tctx.isEmpty then [] else [(str "taxonomyContext", tctx)])

/-- Footer appended by `_create_entry_file`, as lines: the string
`"\n\n---\n*Entry in <Taxonomy> taxonomy*\n"` appended to the document. -/
def entryFooter (taxonomy : Str) : List Line :=
  [[], fmDelim, str "*Entry in " ++ titleCase taxonomy ++ str " taxonomy*", []]

/-- Document written by `_create_entry_file`: the frontmatter block prepended
to the raw content, followed by the taxonomy footer. -/
def entryDocument (content tctx taxonomy : Str) : List Line :=
  add_frontmatter_to_content (splitLines content) (entryFrontmatter content tctx) ++
  entryFooter taxonomy

/-- Directory `entries/<taxonomy-slug>/` of a world. -/
def entryDirPath (wp : FsPath) (ctax : Str) : FsPath := wp ++ [str "entries", ctax]

/-- File path `entries/<taxonomy-slug>/<entry-slug>.md` of a world. -/
def entryFilePath (wp : FsPath) (ctax centry : Str) : FsPath :=
  entryDirPath wp ctax ++ [centry ++ MARKDOWN_EXTENSION]

/-- World context block assembled by `create_world_entry` before branching on
content presence: taxonomy list, existing entries, taxonomy context excerpt
and world overview, composed by `create_world_context_prompt`. -/
def worldContextOf (fs : FS) (wp : FsPath) (tctx taxonomy : Str) : Str :=
  create_world_context_prompt (get_existing_taxonomies fs wp)
    (get_existing_entries_with_descriptions fs wp) tctx (get_world_overview fs wp) taxonomy

/-- Error text of `create_world_entry` when no arguments are provided. -/
def errNoArguments : Str := str "Error: No arguments provided"

/-- Error text of `create_world_entry` when a required argument is missing. -/
def errMissingArguments : Str :=
  str "Error: world_directory, taxonomy, and entry_name are required"

/-- Error text of `create_world_entry` when the world directory does not exist. -/
def errWorldMissing (wp : FsPath) : Str :=
  str "Error: World directory " ++ List.intercalate (str "/") wp ++ str " does not exist"

/-- Taxonomy list rendered into the nonexistent-taxonomy error: the names
joined by commas, or `None` when there are none. -/
def taxonomyListText (ts : List Str) : Str :=
  if ts.isEmpty then str "None" else List.intercalate (str ", ") ts

/-- Error text of `create_world_entry` when the taxonomy overview file does
not exist, enumerating the available taxonomies. -/
def errTaxonomyMissing (taxonomy : Str) (ts : List Str) : Str :=
  str "Error: Taxonomy \x27" ++ taxonomy ++
  str "\x27 does not exist. Available taxonomies: " ++ taxonomyListText ts ++
  str "\n\nUse the create_taxonomy tool to create this taxonomy first."

/-- Context note of the success response: the taxonomy excerpt truncated to
100 characters, or a no-overview note. -/
def contextInfoText (tctx : Str) : Str :=
  if tctx.isEmpty then str "\n\nNo taxonomy overview found for reference."
  else str "\n\nTaxonomy context included: " ++ tctx.take 100 ++ str "..."

/-- Success response of `create_world_entry` after the entry file is written. -/
def successText (entry_name ctax centry tctx wctx stub : Str) : Str :=
  str "# World Context Used for \x27" ++ entry_name ++ str "\x27\n\n" ++ wctx ++
  str "\n\n---\n\n## Entry Created Successfully!\n\nSaved to: " ++
  str "entries/" ++ ctax ++ str "/" ++ centry ++ MARKDOWN_EXTENSION ++
  contextInfoText tctx ++
  str "\n\nThe entry includes:\n1. YAML frontmatter with description\n2. Your detailed content\n3. Taxonomy classification footer" ++
  generate_optimized_entry_image ++ stub ++
  str "\n\n**Note**: Review the content above - it should include crosslinks to existing entries based on the context provided."

/-- Context-only response of `create_world_entry` when no entry content was
provided. -/
def contextOnlyText (entry_name taxonomy wctx : Str) : Str :=
  str "# World Context for Creating \x27" ++ entry_name ++ str "\x27 in " ++ taxonomy ++
  str "\n\n" ++ wctx ++
  str "\n\n---\n\n**Next Step**: Generate entry content that references existing entries using the linking format provided above, then call this tool again with your `entry_content`."

/-- Embeds the region of `create_world_entry` wrapped in `try` in
`entries/creation.py`: resolve the world path, validate existence of the
world directory and the taxonomy overview file, assemble the world context,
and either write the entry file (content present) or return the context-only
response.  The only fault point of the model is the filesystem write, which
raises the message carried by `Env.writeFault`. -/
def create_world_entry_try (env : Env) (fs : FS) (a : Args) : PyResult :=
  let wp := resolve_world_path env.baseDir a.world_directory
  if !(fs.dirExists wp) then .ok (errWorldMissing wp) fs
  else
    let ctax := clean_name a.taxonomy
    let centry := clean_name a.entry_name
    if !(fs.fileExists (taxonomyOverviewPath wp ctax)) then
      .ok (errTaxonomyMissing a.taxonomy (get_existing_taxonomies fs wp)) fs
    else
      let tctx := extract_taxonomy_context fs wp ctax
      let wctx := worldContextOf fs wp tctx a.taxonomy
      if hasContent a then
        let fs1 := fs.mkdirp (entryDirPath wp ctax)
        match env.writeFault with
        | some e => .exn e fs1
        | none =>
          let fs2 := fs1.writeFile (entryFilePath wp ctax centry)
            (entryDocument a.entry_content tctx a.taxonomy)
          .ok (successText a.entry_name ctax centry tctx wctx (generate_stub_analysis env)) fs2
      else .ok (contextOnlyText a.entry_name a.taxonomy wctx) fs

/-- Embeds `create_world_entry` from `entries/creation.py`: reject a missing
argument dictionary and missing required arguments before any filesystem
access, then run the try region and convert a raised exception into the
descriptive error text of the outermost handler. -/
def create_world_entry (env : Env) (fs : FS) (arguments : Option Args) : Str × FS :=
  match arguments with
  | none => (errNoArguments, fs)
  | some a =>
    if missingArgs a then (errMissingArguments, fs)
    else
      match create_world_entry_try env fs a with
      | .ok t f => (t, f)
      | .exn e f => (str "Error creating world entry: " ++ e, f)

/-- Names registered in `ENTRY_HANDLERS` of `tools/entries.py`. -/
def registeredEntryTools : List Str :=
  [str "create_world_entry", str "create_stub_entries",
   str "generate_entry_descriptions", str "add_entry_frontmatter",
   str "analyze_world_consistency"]

/-- Embeds `handle_entry_tool` from `tools/entries.py`: dispatch on the tool
name, raising `ValueError` (an `Except.error`) for an unregistered name, and
otherwise invoking the handler and propagating its result or failure
unchanged (the source catches a handler exception only to log it and
re-raise).  `create_world_entry` is total; the sibling handlers come from the
environment. -/
def handle_entry_tool (env : Env) (fs : FS) (name : Str) (arguments : Option Args) :
    Except Str (Str × FS) :=
  if name = str "create_world_entry" then .ok (create_world_entry env fs arguments)
  else if name = str "create_stub_entries" then env.stubEntriesH arguments fs
  else if name = str "generate_entry_descriptions" then env.genDescH arguments fs
  else if name = str "add_entry_frontmatter" then env.addFmH arguments fs
  else if name = str "analyze_world_consistency" then env.consistencyH arguments fs
  else .error (str "Unknown entry tool: " ++ name)

/-- Equation lemma for `parseField` on a non-empty line. -/
theorem parseField_cons (c : Char) (rest : Line) :
    parseField (c :: rest) =
      if c = ':' then
        match rest with
        | ' ' :: v => some ([], v)
        | _ => none
      else (parseField rest).map (fun kv => (c :: kv.1, kv.2)) := rfl

/-- Parsing inverts rendering of a frontmatter field whose key is colon-free. -/
theorem parseField_renderField (k v : Str) (hk : ':' ∉ k) :
    parseField (renderField (k, v)) = some (k, v) := by
  induction k with
  | nil => simp [renderField, parseField]
  | cons c cs ih =>
    have hc : c ≠ ':' := fun h => hk (h ▸ List.mem_cons_self c cs)
    have hcs : ':' ∉ cs := fun h => hk (List.mem_cons_of_mem c h)
    have ihx : parseField (renderField (cs, v)) = some (cs, v) := ih hcs
    show parseField ((c :: cs) ++ ':' :: ' ' :: v) = some (c :: cs, v)
    rw [List.cons_append, parseField_cons, if_neg hc]
    show (parseField (renderField (cs, v))).map _ = _
    rw [ihx]
    rfl

/-- A rendered frontmatter field is never the delimiter line, because it
contains a colon. -/
theorem renderField_ne_delim (kv : Str × Str) : (renderField kv == fmDelim) = false := by
  refine beq_eq_false_iff_ne.mpr (fun h => ?_)
  have hmem : ':' ∈ renderField kv := by
    simp [renderField]
  rw [h] at hmem
  simp [fmDelim, str] at hmem

/-- Mapped rendering followed by parsing recovers a field list with colon-free
keys. -/
theorem filterMap_parse_map_render (f : List (Str × Str)) (hk : ∀ kv ∈ f, ':' ∉ kv.1) :
    (f.map renderField).filterMap parseField = f := by
  induction f with
  | nil => rfl
  | cons kv rest ih =>
    have h1 : ':' ∉ kv.1 := hk kv (List.mem_cons_self kv rest)
    have h2 : ∀ x ∈ rest, ':' ∉ x.1 := fun x hx => hk x (List.mem_cons_of_mem kv hx)
    simp only [List.map_cons, List.filterMap_cons,
      show parseField (renderField kv) = some kv from parseField_renderField kv.1 kv.2 h1,
      ih h2]

/-- Splitting a line list at the delimiter, when the leading lines are all
distinct from it. -/
theorem takeWhile_dropWhile_delim (F : List Line) (body : List Line)
    (hF : ∀ l ∈ F, (l == fmDelim) = false) :
    (F ++ fmDelim :: body).takeWhile (fun l => !(l == fmDelim)) = F ∧
    (F ++ fmDelim :: body).dropWhile (fun l => !(l == fmDelim)) = fmDelim :: body := by
  induction F with
  | nil => constructor <;> simp [List.takeWhile, List.dropWhile]
  | cons l rest ih =>
    have h1 : (l == fmDelim) = false := hF l (List.mem_cons_self l rest)
    have h2 : ∀ x ∈ rest, (x == fmDelim) = false := fun x hx => hF x (List.mem_cons_of_mem l hx)
    obtain ⟨iht, ihd⟩ := ih h2
    constructor
    · simp only [List.cons_append, List.takeWhile_cons, h1, Bool.not_false, if_true, iht]
    · simp only [List.cons_append, List.dropWhile_cons, h1, Bool.not_false, if_true, ihd]

/-- Equation lemma for `extract_frontmatter` on a non-empty document. -/
theorem extract_frontmatter_cons (l : Line) (rest : List Line) :
    extract_frontmatter (l :: rest) =
      if l == fmDelim && rest.any (· == fmDelim) then
        ((rest.takeWhile (fun l => !(l == fmDelim))).filterMap parseField,
         (rest.dropWhile (fun l => !(l == fmDelim))).drop 1)
      else ([], l :: rest) := rfl

/-- Extracting from an explicitly delimited document recovers the parsed
field lines and the body. -/
theorem extract_header_block (F body : List Line) (hF : ∀ l ∈ F, (l == fmDelim) = false) :
    extract_frontmatter (fmDelim :: (F ++ fmDelim :: body)) = (F.filterMap parseField, body) := by
  obtain ⟨ht, hd⟩ := takeWhile_dropWhile_delim F body hF
  have hany : (F ++ fmDelim :: body).any (· == fmDelim) = true := by
    rw [List.any_eq_true]
    exact ⟨fmDelim, List.mem_append_right F (List.mem_cons_self fmDelim body), beq_self_eq_true fmDelim⟩
  rw [extract_frontmatter_cons]
  simp only [hany, beq_self_eq_true, Bool.and_self, if_true, ht, hd,
    List.drop_succ_cons, List.drop_zero]

/-- Rendered fields never collide with the delimiter, in mapped form. -/
theorem map_render_ne_delim (f : List (Str × Str)) :
    ∀ l ∈ f.map renderField, (l == fmDelim) = false := by
  intro l hl
  obtain ⟨kv, _, rfl⟩ := List.mem_map.mp hl
  exact renderField_ne_delim kv

/-- C9: adding a frontmatter block to content with no pre-existing header and
parsing it back yields exactly the original field list and the original body
(round-trip law); and on content that already has a header block,
`add_frontmatter_to_content` does not stack a second header: extraction
still yields exactly the new fields, with the body of the old document
(its old header replaced).  Keys are colon-free single-line strings, the
representable frontmatter keys of the model. -/
theorem C9_frontmatter_round_trip (c : List Line) (f : List (Str × Str))
    (hk : ∀ kv ∈ f, ':' ∉ kv.1) :
    (hasFmHeader c = false →
      extract_frontmatter (add_frontmatter_to_content c f) = (f, c)) ∧
    (hasFmHeader c = true →
      extract_frontmatter (add_frontmatter_to_content c f) = (f, dropFmHeader c)) := by
  have hren := map_render_ne_delim f
  have hfm := filterMap_parse_map_render f hk
  constructor
  · intro h
    have hadd : add_frontmatter_to_content c f =
        fmDelim :: (f.map renderField ++ fmDelim :: c) := by
      simp [add_frontmatter_to_content, h]
    rw [hadd, extract_header_block _ _ hren, hfm]
  · intro h
    have hadd : add_frontmatter_to_content c f =
        fmDelim :: (f.map renderField ++ fmDelim :: dropFmHeader c) := by
      simp [add_frontmatter_to_content, h]
    rw [hadd, extract_header_block _ _ hren, hfm]

/-- C9 witness: the round trip at a concrete document and field list. -/
theorem C9_frontmatter_round_trip_witness :
    extract_frontmatter (add_frontmatter_to_content [str "Hello world."]
      [(str "description", str "Hi")]) =
      ([(str "description", str "Hi")], [str "Hello world."]) :=
  (C9_frontmatter_round_trip [str "Hello world."] [(str "description", str "Hi")]
    (by decide)).1 (by decide)

/-- Reading back the file just written yields the written document. -/
theorem FS.readFile_writeFile_self (fs : FS) (p : FsPath) (c : List Line) :
    (fs.writeFile p c).readFile p = some c := by
  simp [FS.writeFile, FS.readFile, List.find?_cons_of_pos]

/-- Lookup among the files is unchanged by dropping the entries at a
different path. -/
theorem find?_filter_ne (files : List (FsPath × List Line)) (p q : FsPath) (h : p ≠ q) :
    (files.filter (fun pc => !(pc.1 == p))).find? (fun pc => pc.1 == q) =
      files.find? (fun pc => pc.1 == q) := by
  induction files with
  | nil => rfl
  | cons a l ih =>
    by_cases hp : a.1 = p
    · have h1 : (a.1 == p) = true := beq_iff_eq.mpr hp
      have h2 : (a.1 == q) = false := beq_eq_false_iff_ne.mpr (hp ▸ h)
      simp [List.filter_cons, h1, List.find?_cons, h2, ih]
    · have h1 : (a.1 == p) = false := beq_eq_false_iff_ne.mpr hp
      by_cases hq : a.1 = q
      · have h2 : (a.1 == q) = true := beq_iff_eq.mpr hq
        simp [List.filter_cons, h1, List.find?_cons, h2]
      · have h2 : (a.1 == q) = false := beq_eq_false_iff_ne.mpr hq
        simp [List.filter_cons, h1, List.find?_cons, h2, ih]

/-- Reading a path other than the one just written is unchanged. -/
theorem FS.readFile_writeFile_ne (fs : FS) (p q : FsPath) (c : List Line) (h : p ≠ q) :
    (fs.writeFile p c).readFile q = fs.readFile q := by
  have h1 : (p == q) = false := beq_eq_false_iff_ne.mpr h
  simp [FS.writeFile, FS.readFile, List.find?_cons, h1, find?_filter_ne fs.files p q h]

/-- Existence of a path other than the one just written is unchanged. -/
theorem any_filter_ne (files : List (FsPath × List Line)) (p q : FsPath) (h : p ≠ q) :
    (files.filter (fun pc => !(pc.1 == p))).any (fun pc => pc.1 == q) =
      files.any (fun pc => pc.1 == q) := by
  induction files with
  | nil => rfl
  | cons a l ih =>
    by_cases hp : a.1 = p
    · have h1 : (a.1 == p) = true := beq_iff_eq.mpr hp
      have h2 : (a.1 == q) = false := beq_eq_false_iff_ne.mpr (hp ▸ h)
      simp [List.filter_cons, h1, h2, ih]
    · have h1 : (a.1 == p) = false := beq_eq_false_iff_ne.mpr hp
      simp [List.filter_cons, h1, List.any_cons, ih]

/-- File existence at a different path is unchanged by a write. -/
theorem FS.fileExists_writeFile_ne (fs : FS) (p q : FsPath) (c : List Line) (h : p ≠ q) :
    (fs.writeFile p c).fileExists q = fs.fileExists q := by
  have h1 : (p == q) = false := beq_eq_false_iff_ne.mpr h
  simp [FS.writeFile, FS.fileExists, List.any_cons, h1, any_filter_ne fs.files p q h]

/-- Directory creation preserves the existing directories. -/
theorem FS.dirExists_mkdirp_of (fs : FS) (p q : FsPath) (h : fs.dirExists q = true) :
    (fs.mkdirp p).dirExists q = true := by
  simp only [FS.dirExists, FS.mkdirp] at *
  rw [List.any_append, h, Bool.or_true]

/-- Writes do not change the directory set, reads or existence of files. -/
theorem FS.dirExists_writeFile (fs : FS) (p q : FsPath) (c : List Line) :
    (fs.writeFile p c).dirExists q = fs.dirExists q := rfl

/-- Directory creation does not change the files. -/
theorem FS.readFile_mkdirp (fs : FS) (p q : FsPath) :
    (fs.mkdirp p).readFile q = fs.readFile q := rfl

/-- Directory creation does not change file existence. -/
theorem FS.fileExists_mkdirp (fs : FS) (p q : FsPath) :
    (fs.mkdirp p).fileExists q = fs.fileExists q := rfl

/-- After a write, exactly one file sits at the written path. -/
theorem countP_writeFile (fs : FS) (p : FsPath) (c : List Line) :
    (fs.writeFile p c).files.countP (fun pc => pc.1 == p) = 1 := by
  have hz : (fs.files.filter (fun pc => !(pc.1 == p))).countP (fun pc => pc.1 == p) = 0 := by
    rw [List.countP_eq_zero]
    intro a ha
    have := List.of_mem_filter ha
    simp only [Bool.not_eq_true'] at this
    simp [this]
  simp [FS.writeFile, List.countP_cons, hz, beq_self_eq_true]

/-- Equation lemma for `create_world_entry` on a present argument mapping. -/
theorem create_world_entry_some (env : Env) (fs : FS) (a : Args) :
    create_world_entry env fs (some a) =
      if missingArgs a then (errMissingArguments, fs)
      else
        match create_world_entry_try env fs a with
        | .ok t f => (t, f)
        | .exn e f => (str "Error creating world entry: " ++ e, f) := rfl

/-- Try region, nonexistent world directory: the world-missing error text,
with the filesystem untouched. -/
theorem create_world_entry_try_world_missing (env : Env) (fs : FS) (a : Args)
    (hw : fs.dirExists (resolve_world_path env.baseDir a.world_directory) = false) :
    create_world_entry_try env fs a =
      .ok (errWorldMissing (resolve_world_path env.baseDir a.world_directory)) fs := by
  simp [create_world_entry_try, hw]

/-- Try region, nonexistent taxonomy overview file: the taxonomy-missing
error text enumerating the existing taxonomies, with the filesystem
untouched. -/
theorem create_world_entry_try_taxonomy_missing (env : Env) (fs : FS) (a : Args)
    (hw : fs.dirExists (resolve_world_path env.baseDir a.world_directory) = true)
    (ht : fs.fileExists (taxonomyOverviewPath (resolve_world_path env.baseDir a.world_directory)
      (clean_name a.taxonomy)) = false) :
    create_world_entry_try env fs a =
      .ok (errTaxonomyMissing a.taxonomy
        (get_existing_taxonomies fs (resolve_world_path env.baseDir a.world_directory))) fs := by
  simp [create_world_entry_try, hw, ht]

/-- Try region, no entry content after stripping: the context-only response,
with the filesystem untouched. -/
theorem create_world_entry_try_context_only (env : Env) (fs : FS) (a : Args)
    (hw : fs.dirExists (resolve_world_path env.baseDir a.world_directory) = true)
    (ht : fs.fileExists (taxonomyOverviewPath (resolve_world_path env.baseDir a.world_directory)
      (clean_name a.taxonomy)) = true)
    (hc : hasContent a = false) :
    create_world_entry_try env fs a =
      .ok (contextOnlyText a.entry_name a.taxonomy
        (worldContextOf fs (resolve_world_path env.baseDir a.world_directory)
          (extract_taxonomy_context fs (resolve_world_path env.baseDir a.world_directory)
            (clean_name a.taxonomy)) a.taxonomy)) fs := by
  simp [create_world_entry_try, hw, ht, hc]

/-- Try region, content present and no write fault: the success response and
the filesystem after creating the entry directory and writing the entry
document. -/
theorem create_world_entry_try_success (env : Env) (fs : FS) (a : Args)
    (hw : fs.dirExists (resolve_world_path env.baseDir a.world_directory) = true)
    (ht : fs.fileExists (taxonomyOverviewPath (resolve_world_path env.baseDir a.world_directory)
      (clean_name a.taxonomy)) = true)
    (hc : hasContent a = true)
    (hf : env.writeFault = none) :
    create_world_entry_try env fs a =
      .ok (successText a.entry_name (clean_name a.taxonomy) (clean_name a.entry_name)
            (extract_taxonomy_context fs (resolve_world_path env.baseDir a.world_directory)
              (clean_name a.taxonomy))
            (worldContextOf fs (resolve_world_path env.baseDir a.world_directory)
              (extract_taxonomy_context fs (resolve_world_path env.baseDir a.world_directory)
                (clean_name a.taxonomy)) a.taxonomy)
            env.stubAnalysis)
        ((fs.mkdirp (entryDirPath (resolve_world_path env.baseDir a.world_directory)
            (clean_name a.taxonomy))).writeFile
          (entryFilePath (resolve_world_path env.baseDir a.world_directory)
            (clean_name a.taxonomy) (clean_name a.entry_name))
          (entryDocument a.entry_content
            (extract_taxonomy_context fs (resolve_world_path env.baseDir a.world_directory)
              (clean_name a.taxonomy)) a.taxonomy)) := by
  simp [create_world_entry_try, hw, ht, hc, hf, generate_stub_analysis]

/-- Try region, content present and a faulting write: the exception is
raised after the directory was created (no rollback of that partial
effect). -/
theorem create_world_entry_try_fault (env : Env) (fs : FS) (a : Args) (e : Str)
    (hw : fs.dirExists (resolve_world_path env.baseDir a.world_directory) = true)
    (ht : fs.fileExists (taxonomyOverviewPath (resolve_world_path env.baseDir a.world_directory)
      (clean_name a.taxonomy)) = true)
    (hc : hasContent a = true)
    (hf : env.writeFault = some e) :
    create_world_entry_try env fs a =
      .exn e (fs.mkdirp (entryDirPath (resolve_world_path env.baseDir a.world_directory)
        (clean_name a.taxonomy))) := by
  simp [create_world_entry_try, hw, ht, hc, hf]

/-- With content free of a pre-existing header block, the entry document is
the new frontmatter block, the raw content lines, and the footer. -/
theorem entryDocument_no_header (content tctx taxonomy : Str)
    (hh : hasFmHeader (splitLines content) = false) :
    entryDocument content tctx taxonomy =
      fmDelim :: ((entryFrontmatter content tctx).map renderField ++
        fmDelim :: (splitLines content ++ entryFooter taxonomy)) := by
  simp [entryDocument, add_frontmatter_to_content, hh, List.cons_append, List.append_assoc]

/-- Sample opaque handler used by the concrete environments. -/
def sampleHandler : Option Args → FS → Except Str (Str × FS) := fun _ fs => .ok ([], fs)

/-- Concrete fault-free environment: base directory at the root, no write
fault, empty stub-analysis text. -/
def env0 : Env := ⟨[], none, [], sampleHandler, sampleHandler, sampleHandler, sampleHandler⟩

/-- Concrete environment whose file write raises a disk-full exception. -/
def envFault : Env :=
  ⟨[], some (str "disk full"), [], sampleHandler, sampleHandler, sampleHandler, sampleHandler⟩

/-- Concrete world of the specification example: root directory `w` with
taxonomies `flora` and `fauna` and no entries. -/
def fs0 : FS :=
  ⟨[[str "w"]],
   [([str "w", str "taxonomies", str "flora-overview.md"], []),
    ([str "w", str "taxonomies", str "fauna-overview.md"], [])]⟩

/-- Arguments of the specification example call. -/
def argsRedOak : Args := ⟨str "w", str "flora", str "Red Oak", str "A tall tree."⟩

/-- Arguments whose content carries its own pre-existing frontmatter block. -/
def argsHeadered : Args :=
  ⟨str "w", str "flora", str "Ghost", str "---\nsecret: x\n---\nBody text."⟩

/-- C1 (amended): for every valid call with non-empty entry content that has
no pre-existing frontmatter header block, the written file at
`entries/<taxonomy-slug>/<entry-slug>.md` is the frontmatter block (description
derived from the content, `article_type: full`, plus `taxonomyContext` when the
taxonomy-context excerpt is non-empty), followed by the raw content lines,
followed by the title-cased taxonomy footer.  The restriction to content
without its own header is forced: `add_frontmatter_to_content` replaces a
pre-existing header instead of keeping it in the body. -/
theorem C1_entry_file_format (env : Env) (fs : FS) (a : Args)
    (hm : missingArgs a = false)
    (hw : fs.dirExists (resolve_world_path env.baseDir a.world_directory) = true)
    (ht : fs.fileExists (taxonomyOverviewPath (resolve_world_path env.baseDir a.world_directory)
      (clean_name a.taxonomy)) = true)
    (hc : hasContent a = true)
    (hf : env.writeFault = none)
    (hh : hasFmHeader (splitLines a.entry_content) = false) :
    (create_world_entry env fs (some a)).2.readFile
        (entryFilePath (resolve_world_path env.baseDir a.world_directory)
          (clean_name a.taxonomy) (clean_name a.entry_name)) =
      some (fmDelim ::
        ((entryFrontmatter a.entry_content
            (extract_taxonomy_context fs (resolve_world_path env.baseDir a.world_directory)
              (clean_name a.taxonomy))).map renderField ++
          fmDelim :: (splitLines a.entry_content ++ entryFooter a.taxonomy))) := by
  rw [create_world_entry_some, create_world_entry_try_success env fs a hw ht hc hf]
  simp only [hm, Bool.false_eq_true, if_false]
  rw [FS.readFile_writeFile_self, entryDocument_no_header _ _ _ hh]

/-- C1 counterexample: at a concrete call whose entry content carries its own
frontmatter header, the written file is not the new frontmatter block
followed by the raw content and the footer (the old header is replaced, so
the raw content is not preserved). -/
theorem C1_raw_content_cex :
    ¬ ((create_world_entry env0 fs0 (some argsHeadered)).2.readFile
        [str "w", str "entries", str "flora", str "ghost.md"] =
      some (fmDelim ::
        ((entryFrontmatter argsHeadered.entry_content
            (extract_taxonomy_context fs0 [str "w"] (str "flora"))).map renderField ++
          fmDelim :: (splitLines argsHeadered.entry_content ++
            entryFooter argsHeadered.taxonomy)))) := by
  decide

/-- C1 witness: the specification example, evaluated: creating `Red Oak` in
`flora` writes `entries/flora/red-oak.md` with description `A tall tree.`,
the body, and the footer `Entry in Flora taxonomy`. -/
theorem C1_entry_file_format_witness :
    (create_world_entry env0 fs0 (some argsRedOak)).2.readFile
        (entryFilePath (resolve_world_path env0.baseDir argsRedOak.world_directory)
          (clean_name argsRedOak.taxonomy) (clean_name argsRedOak.entry_name)) =
      some [str "---", str "description: A tall tree.", str "article_type: full",
            str "---", str "A tall tree.", str "", str "---",
            str "*Entry in Flora taxonomy*", str ""] :=
  (C1_entry_file_format env0 fs0 argsRedOak (by decide) (by decide) (by decide)
    (by decide) rfl (by decide)).trans (by decide)

/-- C2: for every call whose taxonomy has no overview file at
`taxonomies/<taxonomy-slug>-overview.md` under the world root, the handler
returns the error message listing all existing taxonomy names (derived from
the overview-file naming convention), and the filesystem is unchanged (no
entry file created or modified). -/
theorem C2_taxonomy_missing (env : Env) (fs : FS) (a : Args)
    (hm : missingArgs a = false)
    (hw : fs.dirExists (resolve_world_path env.baseDir a.world_directory) = true)
    (ht : fs.fileExists (taxonomyOverviewPath (resolve_world_path env.baseDir a.world_directory)
      (clean_name a.taxonomy)) = false) :
    create_world_entry env fs (some a) =
      (errTaxonomyMissing a.taxonomy
        (get_existing_taxonomies fs (resolve_world_path env.baseDir a.world_directory)), fs) := by
  rw [create_world_entry_some, create_world_entry_try_taxonomy_missing env fs a hw ht]
  simp [hm]

/-- C2 witness: requesting the nonexistent taxonomy `minerals` in the sample
world returns the error naming `flora` and `fauna` and leaves the filesystem
unchanged. -/
theorem C2_taxonomy_missing_witness :
    create_world_entry env0 fs0 (some ⟨str "w", str "minerals", str "Opal", str "c"⟩) =
      (errTaxonomyMissing (str "minerals") [str "flora", str "fauna"], fs0) :=
  (C2_taxonomy_missing env0 fs0 ⟨str "w", str "minerals", str "Opal", str "c"⟩
    (by decide) (by decide) (by decide)).trans (by decide)

/-- C3: for every call with empty `entry_content` and valid world directory
and taxonomy, the handler returns only the world-context text block and the
filesystem is unchanged (no file under `entries/` created or modified). -/
theorem C3_empty_content_context_only (env : Env) (fs : FS) (a : Args)
    (hm : missingArgs a = false)
    (hw : fs.dirExists (resolve_world_path env.baseDir a.world_directory) = true)
    (ht : fs.fileExists (taxonomyOverviewPath (resolve_world_path env.baseDir a.world_directory)
      (clean_name a.taxonomy)) = true)
    (hc : a.entry_content = []) :
    create_world_entry env fs (some a) =
      (contextOnlyText a.entry_name a.taxonomy
        (worldContextOf fs (resolve_world_path env.baseDir a.world_directory)
          (extract_taxonomy_context fs (resolve_world_path env.baseDir a.world_directory)
            (clean_name a.taxonomy)) a.taxonomy), fs) := by
  have hc2 : hasContent a = false := by simp [hasContent, hc, stripChars]
  rw [create_world_entry_some, create_world_entry_try_context_only env fs a hw ht hc2]
  simp [hm]

/-- C3 witness: the sample call with empty content returns the context-only
response and leaves the filesystem unchanged. -/
theorem C3_empty_content_context_only_witness :
    create_world_entry env0 fs0 (some ⟨str "w", str "flora", str "Red Oak", []⟩) =
      (contextOnlyText (str "Red Oak") (str "flora")
        (worldContextOf fs0 (resolve_world_path env0.baseDir (str "w"))
          (extract_taxonomy_context fs0 (resolve_world_path env0.baseDir (str "w"))
            (clean_name (str "flora"))) (str "flora")), fs0) :=
  C3_empty_content_context_only env0 fs0 ⟨str "w", str "flora", str "Red Oak", []⟩
    (by decide) (by decide) (by decide) rfl

/-- C6: a call without an argument mapping, or with any of the required
arguments `world_directory`, `taxonomy`, `entry_name` missing, returns the
descriptive error text with the filesystem untouched; the result does not
depend on the filesystem at all (no filesystem access before the check). -/
theorem C6_missing_arguments (env : Env) (fs : FS) :
    create_world_entry env fs none = (errNoArguments, fs) ∧
    (∀ a : Args, missingArgs a = true →
      create_world_entry env fs (some a) = (errMissingArguments, fs)) := by
  refine ⟨rfl, fun a hm => ?_⟩
  rw [create_world_entry_some]
  simp [hm]

/-- C6 witness: a call missing `world_directory` returns the missing-argument
error and leaves the sample filesystem unchanged. -/
theorem C6_missing_arguments_witness :
    create_world_entry env0 fs0 (some ⟨[], str "flora", str "Red Oak", []⟩) =
      (errMissingArguments, fs0) :=
  (C6_missing_arguments env0 fs0).2 ⟨[], str "flora", str "Red Oak", []⟩ (by decide)

/-- C7: for every call whose resolved world directory does not exist, the
handler returns the descriptive world-missing error text and performs no
writes (the filesystem is returned unchanged, the world root is not
created). -/
theorem C7_world_missing (env : Env) (fs : FS) (a : Args)
    (hm : missingArgs a = false)
    (hw : fs.dirExists (resolve_world_path env.baseDir a.world_directory) = false) :
    create_world_entry env fs (some a) =
      (errWorldMissing (resolve_world_path env.baseDir a.world_directory), fs) := by
  rw [create_world_entry_some, create_world_entry_try_world_missing env fs a hw]
  simp [hm]

/-- C7 witness: a call on the nonexistent world root `nowhere` errors and
leaves the sample filesystem unchanged. -/
theorem C7_world_missing_witness :
    create_world_entry env0 fs0 (some ⟨str "nowhere", str "flora", str "X", []⟩) =
      (errWorldMissing [str "nowhere"], fs0) :=
  (C7_world_missing env0 fs0 ⟨str "nowhere", str "flora", str "X", []⟩
    (by decide) (by decide)).trans (by decide)

/-- C8: every exception raised inside the try region of the entry-creation
flow is caught at the outermost boundary and converted into the descriptive
error text result, carrying the filesystem state at the raise (partial
effects such as the created directory persist); no exception propagates out
of `create_world_entry`, which is total by construction. -/
theorem C8_exception_conversion (env : Env) (fs : FS) (a : Args) (e : Str) (fsx : FS)
    (hm : missingArgs a = false)
    (hx : create_world_entry_try env fs a = .exn e fsx) :
    create_world_entry env fs (some a) =
      (str "Error creating world entry: " ++ e, fsx) := by
  rw [create_world_entry_some, hx]
  simp [hm]

/-- C8 witness: under the disk-full environment the sample call raises at
the write and the handler returns the converted error text with the created
entry directory persisting. -/
theorem C8_exception_conversion_witness :
    create_world_entry envFault fs0 (some argsRedOak) =
      (str "Error creating world entry: " ++ str "disk full",
       fs0.mkdirp (entryDirPath [str "w"] (str "flora"))) :=
  C8_exception_conversion envFault fs0 argsRedOak (str "disk full")
    (fs0.mkdirp (entryDirPath [str "w"] (str "flora"))) (by decide) (by decide)

/-- Stripping a string of whitespace characters only yields the empty string. -/
theorem stripChars_all_whitespace (l : Str) (h : ∀ c ∈ l, c.isWhitespace = true) :
    stripChars l = [] := by
  have h1 : l.dropWhile Char.isWhitespace = [] :=
    List.dropWhile_eq_nil_iff.mpr (fun x hx => h x hx)
  simp [stripChars, h1]

/-- C10: a call whose entry content is a non-empty string of whitespace
characters behaves exactly as the empty-content case: the handler returns
only the context block, the filesystem is unchanged, and the result equals
the result of the same call with empty content (content presence is decided
by stripping whitespace, not by string emptiness). -/
theorem C10_whitespace_content (env : Env) (fs : FS) (a : Args)
    (hm : missingArgs a = false)
    (hw : fs.dirExists (resolve_world_path env.baseDir a.world_directory) = true)
    (ht : fs.fileExists (taxonomyOverviewPath (resolve_world_path env.baseDir a.world_directory)
      (clean_name a.taxonomy)) = true)
    (hne : a.entry_content ≠ [])
    (hws : ∀ c ∈ a.entry_content, c.isWhitespace = true) :
    create_world_entry env fs (some a) =
      (contextOnlyText a.entry_name a.taxonomy
        (worldContextOf fs (resolve_world_path env.baseDir a.world_directory)
          (extract_taxonomy_context fs (resolve_world_path env.baseDir a.world_directory)
            (clean_name a.taxonomy)) a.taxonomy), fs) ∧
    create_world_entry env fs (some a) =
      create_world_entry env fs
        (some (Args.mk a.world_directory a.taxonomy a.entry_name [])) := by
  have hc : hasContent a = false := by
    simp [hasContent, stripChars_all_whitespace a.entry_content hws]
  have part1 : create_world_entry env fs (some a) =
      (contextOnlyText a.entry_name a.taxonomy
        (worldContextOf fs (resolve_world_path env.baseDir a.world_directory)
          (extract_taxonomy_context fs (resolve_world_path env.baseDir a.world_directory)
            (clean_name a.taxonomy)) a.taxonomy), fs) := by
    rw [create_world_entry_some, create_world_entry_try_context_only env fs a hw ht hc]
    simp [hm]
  have part2 : create_world_entry env fs
      (some (Args.mk a.world_directory a.taxonomy a.entry_name [])) =
      (contextOnlyText a.entry_name a.taxonomy
        (worldContextOf fs (resolve_world_path env.baseDir a.world_directory)
          (extract_taxonomy_context fs (resolve_world_path env.baseDir a.world_directory)
            (clean_name a.taxonomy)) a.taxonomy), fs) := by
    have hm2 : missingArgs (Args.mk a.world_directory a.taxonomy a.entry_name []) = false := hm
    rw [create_world_entry_some,
      create_world_entry_try_context_only env fs (Args.mk a.world_directory a.taxonomy a.entry_name [])
        hw ht rfl]
    simp [hm2]
  exact ⟨part1, part1.trans part2.symm⟩

/-- C10 witness: whitespace-only content behaves exactly as empty content on
the sample world. -/
theorem C10_whitespace_content_witness :
    create_world_entry env0 fs0 (some ⟨str "w", str "flora", str "Red Oak", str " \n "⟩) =
      create_world_entry env0 fs0 (some ⟨str "w", str "flora", str "Red Oak", []⟩) :=
  (C10_whitespace_content env0 fs0 ⟨str "w", str "flora", str "Red Oak", str " \n "⟩
    (by decide) (by decide) (by decide) (by decide) (by decide)).2

/-- C5: the entry tool router fails with the distinct unknown-tool condition
identifying the bad name for every name outside the registered handlers
(never silently returning an empty result), and for every registered name it
invokes the corresponding handler and propagates its result or failure
unchanged. -/
theorem C5_router_dispatch (env : Env) (fs : FS) (name : Str) (args : Option Args) :
    (name ∉ registeredEntryTools →
      handle_entry_tool env fs name args = .error (str "Unknown entry tool: " ++ name)) ∧
    handle_entry_tool env fs (str "create_world_entry") args =
      .ok (create_world_entry env fs args) ∧
    handle_entry_tool env fs (str "create_stub_entries") args = env.stubEntriesH args fs ∧
    handle_entry_tool env fs (str "generate_entry_descriptions") args = env.genDescH args fs ∧
    handle_entry_tool env fs (str "add_entry_frontmatter") args = env.addFmH args fs ∧
    handle_entry_tool env fs (str "analyze_world_consistency") args = env.consistencyH args fs := by
  refine ⟨fun h => ?_, ?_, ?_, ?_, ?_, ?_⟩
  · have h1 : name ≠ str "create_world_entry" := fun he => h (by
      rw [he]; exact List.mem_cons_self _ _)
    have h2 : name ≠ str "create_stub_entries" := fun he => h (by
      rw [he]; simp [registeredEntryTools])
    have h3 : name ≠ str "generate_entry_descriptions" := fun he => h (by
      rw [he]; simp [registeredEntryTools])
    have h4 : name ≠ str "add_entry_frontmatter" := fun he => h (by
      rw [he]; simp [registeredEntryTools])
    have h5 : name ≠ str "analyze_world_consistency" := fun he => h (by
      rw [he]; simp [registeredEntryTools])
    simp only [handle_entry_tool, if_neg h1, if_neg h2, if_neg h3, if_neg h4, if_neg h5]
  · simp only [handle_entry_tool, if_pos rfl]
    simp
  · simp only [handle_entry_tool, if_neg (by decide : str "create_stub_entries" ≠
      str "create_world_entry"), if_pos rfl]
    simp
  · simp only [handle_entry_tool,
      if_neg (by decide : str "generate_entry_descriptions" ≠ str "create_world_entry"),
      if_neg (by decide : str "generate_entry_descriptions" ≠ str "create_stub_entries"),
      if_pos rfl]
    simp
  · simp only [handle_entry_tool,
      if_neg (by decide : str "add_entry_frontmatter" ≠ str "create_world_entry"),
      if_neg (by decide : str "add_entry_frontmatter" ≠ str "create_stub_entries"),
      if_neg (by decide : str "add_entry_frontmatter" ≠ str "generate_entry_descriptions"),
      if_pos rfl]
    simp
  · simp only [handle_entry_tool,
      if_neg (by decide : str "analyze_world_consistency" ≠ str "create_world_entry"),
      if_neg (by decide : str "analyze_world_consistency" ≠ str "create_stub_entries"),
      if_neg (by decide : str "analyze_world_consistency" ≠ str "generate_entry_descriptions"),
      if_neg (by decide : str "analyze_world_consistency" ≠ str "add_entry_frontmatter"),
      if_pos rfl]
    simp

/-- C5 witness: dispatching the unknown name `does_not_exist` raises the
unknown-tool condition naming it. -/
theorem C5_router_dispatch_witness :
    handle_entry_tool env0 fs0 (str "does_not_exist") none =
      .error (str "Unknown entry tool: " ++ str "does_not_exist") :=
  (C5_router_dispatch env0 fs0 (str "does_not_exist") none).1 (by decide)

/-- The entry file path never coincides with the taxonomy overview path
(they differ in depth under the world root). -/
theorem entryFilePath_ne_overviewPath (wp : FsPath) (ctax centry ctax2 : Str) :
    entryFilePath wp ctax centry ≠ taxonomyOverviewPath wp ctax2 := by
  intro hEq
  have hlen := congrArg List.length hEq
  simp only [entryFilePath, entryDirPath, taxonomyOverviewPath, List.length_append,
    List.length_cons, List.length_nil] at hlen
  omega

/-- The taxonomy context excerpt is unchanged by creating a directory and
writing a file at a path other than the overview file. -/
theorem extract_taxonomy_context_mkdirp_writeFile (fs : FS) (q p : FsPath) (doc : List Line)
    (wp : FsPath) (ctax : Str) (h : p ≠ taxonomyOverviewPath wp ctax) :
    extract_taxonomy_context ((fs.mkdirp q).writeFile p doc) wp ctax =
      extract_taxonomy_context fs wp ctax := by
  have hrd : ((fs.mkdirp q).writeFile p doc).readFile (taxonomyOverviewPath wp ctax) =
      fs.readFile (taxonomyOverviewPath wp ctax) := by
    rw [FS.readFile_writeFile_ne _ _ _ _ h, FS.readFile_mkdirp]
  simp only [extract_taxonomy_context, hrd]

/-- C4: calling entry creation twice with identical `world_directory`,
`taxonomy` and `entry_name` but differing non-empty content overwrites the
first file without warning: the final file at
`entries/<taxonomy-slug>/<entry-slug>.md` holds exactly the document built
from the second content, and exactly one file sits at that path (no
duplicate). -/
theorem C4_second_call_overwrites (env : Env) (fs : FS) (a : Args) (c2 : Str)
    (hm : missingArgs a = false)
    (hw : fs.dirExists (resolve_world_path env.baseDir a.world_directory) = true)
    (ht : fs.fileExists (taxonomyOverviewPath (resolve_world_path env.baseDir a.world_directory)
      (clean_name a.taxonomy)) = true)
    (hc1 : hasContent a = true)
    (hc2 : hasContent (Args.mk a.world_directory a.taxonomy a.entry_name c2) = true)
    (hne : a.entry_content ≠ c2)
    (hf : env.writeFault = none) :
    (create_world_entry env (create_world_entry env fs (some a)).2
        (some (Args.mk a.world_directory a.taxonomy a.entry_name c2))).2.readFile
        (entryFilePath (resolve_world_path env.baseDir a.world_directory)
          (clean_name a.taxonomy) (clean_name a.entry_name)) =
      some (entryDocument c2
        (extract_taxonomy_context fs (resolve_world_path env.baseDir a.world_directory)
          (clean_name a.taxonomy)) a.taxonomy) ∧
    (create_world_entry env (create_world_entry env fs (some a)).2
        (some (Args.mk a.world_directory a.taxonomy a.entry_name c2))).2.files.countP
        (fun pc => pc.1 == entryFilePath (resolve_world_path env.baseDir a.world_directory)
          (clean_name a.taxonomy) (clean_name a.entry_name)) = 1 := by
  have hPO := entryFilePath_ne_overviewPath (resolve_world_path env.baseDir a.world_directory)
    (clean_name a.taxonomy) (clean_name a.entry_name) (clean_name a.taxonomy)
  have hfs1 : (create_world_entry env fs (some a)).2 =
      (fs.mkdirp (entryDirPath (resolve_world_path env.baseDir a.world_directory)
        (clean_name a.taxonomy))).writeFile
        (entryFilePath (resolve_world_path env.baseDir a.world_directory)
          (clean_name a.taxonomy) (clean_name a.entry_name))
        (entryDocument a.entry_content
          (extract_taxonomy_context fs (resolve_world_path env.baseDir a.world_directory)
            (clean_name a.taxonomy)) a.taxonomy) := by
    rw [create_world_entry_some, create_world_entry_try_success env fs a hw ht hc1 hf]
    simp [hm]
  have hm2 : missingArgs (Args.mk a.world_directory a.taxonomy a.entry_name c2) = false := hm
  have hw2 : ((fs.mkdirp (entryDirPath (resolve_world_path env.baseDir a.world_directory)
      (clean_name a.taxonomy))).writeFile
      (entryFilePath (resolve_world_path env.baseDir a.world_directory)
        (clean_name a.taxonomy) (clean_name a.entry_name))
      (entryDocument a.entry_content
        (extract_taxonomy_context fs (resolve_world_path env.baseDir a.world_directory)
          (clean_name a.taxonomy)) a.taxonomy)).dirExists
      (resolve_world_path env.baseDir a.world_directory) = true := by
    rw [FS.dirExists_writeFile]
    exact FS.dirExists_mkdirp_of fs _ _ hw
  have ht2 : ((fs.mkdirp (entryDirPath (resolve_world_path env.baseDir a.world_directory)
      (clean_name a.taxonomy))).writeFile
      (entryFilePath (resolve_world_path env.baseDir a.world_directory)
        (clean_name a.taxonomy) (clean_name a.entry_name))
      (entryDocument a.entry_content
        (extract_taxonomy_context fs (resolve_world_path env.baseDir a.world_directory)
          (clean_name a.taxonomy)) a.taxonomy)).fileExists
      (taxonomyOverviewPath (resolve_world_path env.baseDir a.world_directory)
        (clean_name a.taxonomy)) = true := by
    rw [FS.fileExists_writeFile_ne _ _ _ _ hPO, FS.fileExists_mkdirp]
    exact ht
  have htc := extract_taxonomy_context_mkdirp_writeFile fs
    (entryDirPath (resolve_world_path env.baseDir a.world_directory) (clean_name a.taxonomy))
    (entryFilePath (resolve_world_path env.baseDir a.world_directory)
      (clean_name a.taxonomy) (clean_name a.entry_name))
    (entryDocument a.entry_content
      (extract_taxonomy_context fs (resolve_world_path env.baseDir a.world_directory)
        (clean_name a.taxonomy)) a.taxonomy)
    (resolve_world_path env.baseDir a.world_directory) (clean_name a.taxonomy) hPO
  rw [hfs1, create_world_entry_some,
    create_world_entry_try_success env _ (Args.mk a.world_directory a.taxonomy a.entry_name c2)
      hw2 ht2 hc2 hf]
  simp only [hm2, Bool.false_eq_true, if_false]
  rw [htc]
  exact ⟨FS.readFile_writeFile_self _ _ _, countP_writeFile _ _ _⟩

/-- C4 witness: re-creating `Red Oak` with new content leaves exactly one
file at `entries/flora/red-oak.md`, holding the document built from the
second content. -/
theorem C4_second_call_overwrites_witness :
    (create_world_entry env0 (create_world_entry env0 fs0 (some argsRedOak)).2
        (some (Args.mk (str "w") (str "flora") (str "Red Oak") (str "A short shrub.")))).2.readFile
        [str "w", str "entries", str "flora", str "red-oak.md"] =
      some [str "---", str "description: A short shrub.", str "article_type: full",
            str "---", str "A short shrub.", str "", str "---",
            str "*Entry in Flora taxonomy*", str ""] :=
  ((C4_second_call_overwrites env0 fs0 argsRedOak (str "A short shrub.")
    (by decide) (by decide) (by decide) (by decide) (by decide) (by decide) rfl).1).trans
    (by decide)
